import Mathlib

/-!
Shallow embedding of the AlmaLinux mirror-selection service
(src/backend/api/handlers.py, src/backend/api/utils.py,
src/backend/api/mirror_processor.py, src/backend/db/models.py,
src/backend/update_mirrors.py, data_models.py) used to settle the
claims about the mirror-selection engine.

Python dictionaries are embedded as association lists in insertion order;
machine integers are Nat or Int; values that may be Python None are Option;
functions that may raise are Except or Option valued.  Calls to
random.shuffle are embedded through an explicit shuffle parameter, and the
haversine distance through an explicit dist parameter, since the claims
quantify over their behaviour.
-/

namespace Mirrors

/-- Embedding of the Python method s.startswith(pre): pre is a character
prefix of s.  Stated on the character lists so that it evaluates inside the
kernel. -/
def pyStartswith (s pre : String) : Bool :=
  pre.data.isPrefixOf s.data

/-- Embedding of the Python method s.endswith(suf). -/
def pyEndswith (s suf : String) : Bool :=
  suf.data.isSuffixOf s.data

/-- Embedding of the Python method s.lower(), character by character (the
region names the service lower-cases are ASCII). -/
def pyLower (s : String) : String :=
  String.mk (s.data.map Char.toLower)

/-- Splitting a character list at every occurrence of the separator; the
result is never empty and the empty list splits to one empty piece, exactly
as the Python method s.split(sep) behaves on strings. -/
def splitOnCharAux (sep : Char) : List Char → List (List Char)
  | [] => [[]]
  | c :: rest =>
    match splitOnCharAux sep rest with
    | [] => [[]]
    | h :: t => if c = sep then [] :: h :: t else (c :: h) :: t

/-- Embedding of the Python method s.split(sep) for a one-character
separator, as in cloud_region.lower().split(a comma). -/
def pySplit (s : String) (sep : Char) : List String :=
  (splitOnCharAux sep s.data).map String.mk

/-- Python dict lookup on an association list: the first pair whose key
matches (keys of a Python dict are unique, so this is the dict value). -/
def dictGet (d : List (String × String)) (key : String) : Option String :=
  (d.find? (fun p => p.1 == key)).map (·.2)

/-- Membership test among the keys of a dict, as in version in duplicated_versions. -/
def dictHasKey (d : List (String × String)) (key : String) : Bool :=
  d.any (fun p => p.1 == key)

/-- Embedding of get_allowed_version from src/backend/api/handlers.py
(lines 568-590).  Except.error () stands for raising UnknownRepoAttribute.
The first branch fires when the version is neither active nor vault, and
scans the keys of duplicated_versions in insertion order for the first one
that is a prefix of the requested version.  The second branch fires when
the version is active and is itself a key of duplicated_versions. -/
def get_allowed_version (versions : List String) (vault_versions : List String)
    (duplicated_versions : List (String × String)) (version : String) :
    Except Unit String :=
  if version ∉ versions ∧ version ∉ vault_versions then
    match duplicated_versions.find? (fun p => pyStartswith version p.1) with
    | some p =>
      match dictGet duplicated_versions p.1 with
      | some v => Except.ok v
      | none => Except.error ()
    | none => Except.error ()
  else if version ∈ versions ∧ dictHasKey duplicated_versions version then
    match dictGet duplicated_versions version with
    | some v => Except.ok v
    | none => Except.error ()
  else
    Except.ok version

/-- The GeoLocationData dataclass from data_models.py (lines 39-73).  A field
holds none for Python None, otherwise some s for the string s; the dataclass
default for every field is the string Unknown. -/
structure GeoLocationData where
  continent : Option String := some ("Unknown")
  country : Option String := some ("Unknown")
  state_province : Option String := some ("Unknown")
  city : Option String := some ("Unknown")
  deriving Repr, DecidableEq

/-- The GeoLocationData setattr rule for an already-constructed object
(data_models.py lines 65-67): assignment takes effect only when the current
value is the string Unknown or None; otherwise the current value is kept. -/
def setattrField (cur : Option String) (new : Option String) : Option String :=
  if cur = some ("Unknown") ∨ cur = none then new else cur

/-- Embedding of GeoLocationData.update_from_existing_object (data_models.py
lines 69-73): assigns every field of the other object through setattr. -/
def update_from_existing_object (self other : GeoLocationData) :
    GeoLocationData :=
  { continent := setattrField self.continent other.continent
    country := setattrField self.country other.country
    state_province := setattrField self.state_province other.state_province
    city := setattrField self.city other.city }

/-- An already-parsed ipaddress.ip_network value: IP version (4 or 6),
integer network address and integer broadcast address.  A bare host address
parses to a full-length network whose addr equals its bcast. -/
structure IPNet where
  version : Nat
  addr : Nat
  bcast : Nat
  deriving Repr, DecidableEq

/-- Embedding of a.subnet_of(b) from the Python ipaddress module: raises
TypeError (embedded as none) when the versions differ, otherwise compares
the integer bounds of the two networks. -/
def subnet_of (a b : IPNet) : Option Bool :=
  if a.version ≠ b.version then none
  else some (decide (b.addr ≤ a.addr ∧ b.bcast ≥ a.bcast))

/-- Embedding of is_ip_in_any_subnet from src/backend/db/models.py
(lines 401-411), on already-parsed networks.  The Python conjunction is
short-circuiting, so subnet_of is only consulted when the versions agree;
none stands for an uncaught exception escaping the loop. -/
def is_ip_in_any_subnet (ip_address : IPNet) (subnets : List IPNet) :
    Option Bool :=
  match subnets with
  | [] => some false
  | subnet :: rest =>
    if ip_address.version == subnet.version then
      match subnet_of ip_address subnet with
      | none => none
      | some true => some true
      | some false => is_ip_in_any_subnet ip_address rest
    else
      is_ip_in_any_subnet ip_address rest

/-- Selection-relevant fields of the MirrorData dataclass (data_models.py
lines 76-102) as the request path sees a mirror: country is
geolocation.country, latitude and longitude are the location fields, and
subnets holds parsed networks. -/
structure MirrorData where
  name : String
  status : String
  private_ : Bool
  monopoly : Bool
  asn : List String
  subnets : List IPNet
  cloud_type : String
  cloud_region : String
  mirror_url : String
  ip : Option String
  has_full_iso_set : Bool
  country : String
  latitude : Int
  longitude : Int
  deriving Repr, DecidableEq

/-- Constant LENGTH_GEO_MIRRORS_LIST from src/backend/api/handlers.py line 54. -/
def LENGTH_GEO_MIRRORS_LIST : Nat := 10

/-- Constant LENGTH_CLOUD_MIRRORS_LIST from src/backend/api/handlers.py line 55. -/
def LENGTH_CLOUD_MIRRORS_LIST : Nat := 5

/-- Constant RANDOMIZE_WITHIN_KM from src/backend/api/utils.py line 57. -/
def RANDOMIZE_WITHIN_KM : Int := 500

/-- Result tuple of get_geo_data_by_ip (src/backend/api/utils.py lines
152-182) when the lookup succeeds: continent, country, state, city,
latitude, longitude.  State and city may be Python None. -/
structure GeoData where
  continent : String
  country : String
  state : Option String
  city : Option String
  latitude : Int
  longitude : Int
  deriving Repr, DecidableEq

/-- Python truthiness of an optional string: None and the empty string are
falsy. -/
def truthyOpt : Option String → Bool
  | none => false
  | some s => !(s == "")

/-- Python truthiness of a string: the empty string is falsy. -/
def truthyStr (s : String) : Bool := !(s == "")

/-- An element of the list built by sort_mirrors_by_distance_and_country:
a dict holding the precomputed distance in km and the mirror itself. -/
structure MirrorWithDistance where
  distance : Int
  mirror : MirrorData
  deriving Repr, DecidableEq

/-- Sort key comparison used by sort_mirrors_by_distance_and_country:
Python sorted with the key tuple (mirror country not equal to the client
country, distance) sorts ascending and lexicographically, False before
True. -/
def sortKeyLE (country : String) (a b : MirrorWithDistance) : Bool :=
  let ka : Bool := !(a.mirror.country == country)
  let kb : Bool := !(b.mirror.country == country)
  (!ka && kb) || (ka == kb && a.distance ≤ b.distance)

/-- Embedding of sort_mirrors_by_distance_and_country from
src/backend/api/utils.py (lines 437-461).  The haversine computation
get_distance_in_km is passed in as dist (mirror coordinates first, request
coordinates second); Python sorted is a stable ascending sort, embedded as
a stable merge sort on the same key. -/
def sort_mirrors_by_distance_and_country
    (dist : Int × Int → Int × Int → Int)
    (request_geo_data : Int × Int) (mirrors : List MirrorData)
    (country : String) : List MirrorWithDistance :=
  let mirrors_sorted := mirrors.map (fun m =>
    MirrorWithDistance.mk (dist (m.latitude, m.longitude) request_geo_data) m)
  mirrors_sorted.mergeSort (sortKeyLE country)

/-- Embedding of randomize_mirrors_within_distance from
src/backend/api/utils.py (lines 464-494).  The two calls to random.shuffle
are embedded as the shuffle parameter; shuffle_distance is the keyword
argument whose Python default is RANDOMIZE_WITHIN_KM. -/
def randomize_mirrors_within_distance
    (shuffle : List MirrorData → List MirrorData)
    (mirrors : List MirrorWithDistance) (country : String)
    (shuffle_distance : Int) : List MirrorData :=
  let mirrors_in_country_shuffled := (mirrors.filter (fun p =>
    p.distance ≤ shuffle_distance && p.mirror.country == country)).map (·.mirror)
  let mirrors_in_country := (mirrors.filter (fun p =>
    shuffle_distance < p.distance && p.mirror.country == country)).map (·.mirror)
  let other_mirrors_shuffled := (mirrors.filter (fun p =>
    p.distance ≤ shuffle_distance && !(p.mirror.country == country))).map (·.mirror)
  let other_mirrors := (mirrors.filter (fun p =>
    shuffle_distance < p.distance && !(p.mirror.country == country))).map (·.mirror)
  shuffle mirrors_in_country_shuffled ++ mirrors_in_country ++
    shuffle other_mirrors_shuffled ++ other_mirrors

/-- Test whether the client ASN matches a mirror: asn is not None and asn in
mirror.asn (src/backend/api/handlers.py line 109). -/
def asn_in (asn : Option String) (m : MirrorData) : Bool :=
  match asn with
  | some a => m.asn.contains a
  | none => false

/-- Network affinity test for one mirror from src/backend/api/handlers.py
lines 109-112: ASN equality or subnet containment.  By theorem
is_ip_in_any_subnet_total the subnet test never raises, so reading the
boolean with getD is faithful. -/
def mirror_network_match (asn : Option String) (ip : IPNet)
    (m : MirrorData) : Bool :=
  asn_in asn m || (is_ip_in_any_subnet ip m.subnets).getD false

/-- The for-loop of _get_nearest_mirrors_by_network_data
(src/backend/api/handlers.py lines 106-116): mirrors whose status is not ok
are skipped, a matching monopoly mirror returns early (embedded as
Except.error), other matching mirrors are collected in list order. -/
def network_suitable_loop (asn : Option String) (ip : IPNet) :
    List MirrorData → Except MirrorData (List MirrorData)
  | [] => Except.ok []
  | m :: rest =>
    if !(m.status == "ok") then network_suitable_loop asn ip rest
    else if mirror_network_match asn ip m then
      if m.monopoly then Except.error m
      else (network_suitable_loop asn ip rest).map (m :: ·)
    else network_suitable_loop asn ip rest

/-- Embedding of the helper _is_additional_mirrors_suitable
(src/backend/api/handlers.py lines 82-94). -/
def _is_additional_mirrors_suitable (mirror_data : MirrorData)
    (main_list_of_mirrors : List MirrorData) : Bool :=
  mirror_data.status == "ok" && !mirror_data.private_ &&
    !(decide (mirror_data ∈ main_list_of_mirrors))

/-- Embedding of _get_nearest_mirrors_by_network_data from
src/backend/api/handlers.py (lines 70-136).  The filtered mirror list
returned by get_all_mirrors is the mirrors parameter; geo_match and asn are
the results of get_geo_data_by_ip and get_asn_by_ip for the client IP. -/
def _get_nearest_mirrors_by_network_data
    (dist : Int × Int → Int × Int → Int)
    (shuffle : List MirrorData → List MirrorData)
    (geo_match : Option GeoData) (asn : Option String) (ip : IPNet)
    (mirrors : List MirrorData) : List MirrorData :=
  match network_suitable_loop asn ip mirrors with
  | Except.error monopoly_mirror => [monopoly_mirror]
  | Except.ok suitable_mirrors =>
    match geo_match with
    | some g =>
      if 1 ≤ suitable_mirrors.length ∧
          suitable_mirrors.length < LENGTH_CLOUD_MIRRORS_LIST then
        let not_sorted_additional_mirrors := mirrors.filter
          (fun m => _is_additional_mirrors_suitable m suitable_mirrors)
        let sorted_additional_mirrors := sort_mirrors_by_distance_and_country
          dist (g.latitude, g.longitude) not_sorted_additional_mirrors
          g.country
        let randomized_additional_mirrors :=
          (randomize_mirrors_within_distance shuffle sorted_additional_mirrors
            g.country RANDOMIZE_WITHIN_KM).take
            (LENGTH_CLOUD_MIRRORS_LIST - suitable_mirrors.length)
        suitable_mirrors ++ randomized_additional_mirrors
      else suitable_mirrors
    | none => suitable_mirrors

/-- Embedding of _get_nearest_mirrors_by_geo_data from
src/backend/api/handlers.py (lines 139-184).  When the GeoIP lookup misses,
the whole filtered mirror list is returned without truncation; otherwise
the list is sorted and radius-randomized (or merely shuffled when city,
state and country are all falsy) and truncated to LENGTH_GEO_MIRRORS_LIST. -/
def _get_nearest_mirrors_by_geo_data
    (dist : Int × Int → Int × Int → Int)
    (shuffle : List MirrorData → List MirrorData)
    (geo_match : Option GeoData) (mirrors : List MirrorData) :
    List MirrorData :=
  match geo_match with
  | none => mirrors
  | some g =>
    let mirrors2 :=
      if truthyOpt g.city || truthyOpt g.state || truthyStr g.country then
        randomize_mirrors_within_distance shuffle
          (sort_mirrors_by_distance_and_country dist
            (g.latitude, g.longitude) mirrors g.country)
          g.country RANDOMIZE_WITHIN_KM
      else shuffle mirrors
    mirrors2.take LENGTH_GEO_MIRRORS_LIST

/-- Embedding of _get_nearest_mirrors from src/backend/api/handlers.py
(lines 187-233).  The mirrors parameter is the (already shuffled) result of
get_all_mirrors under the filter of the call; cached is the per-IP Redis
entry, none on a cache miss. -/
def _get_nearest_mirrors
    (dist : Int × Int → Int × Int → Int)
    (shuffle : List MirrorData → List MirrorData)
    (geo_match : Option GeoData) (asn : Option String)
    (ip_address : Option IPNet) (cached : Option (List MirrorData))
    (mirrors : List MirrorData) : List MirrorData :=
  match ip_address with
  | none => mirrors
  | some ip =>
    match cached with
    | some suitable_mirrors => suitable_mirrors
    | none =>
      let by_network := _get_nearest_mirrors_by_network_data dist shuffle
        geo_match asn ip mirrors
      if by_network.isEmpty then
        _get_nearest_mirrors_by_geo_data dist shuffle geo_match mirrors
      else by_network

/-- The RepoData dataclass from data_models.py (lines 142-148), restricted
to the fields the selector reads. -/
structure RepoData where
  name : String
  path : String
  vault : Bool
  deriving Repr, DecidableEq

/-- The MainConfig dataclass from data_models.py (lines 151-165), restricted
to the fields get_mirrors_list reads. -/
structure MainConfig where
  versions : List String
  duplicated_versions : List (String × String)
  vault_versions : List String
  vault_mirror : String
  repos : List RepoData
  deriving Repr, DecidableEq

/-- Embedding of _is_vault_repo from src/backend/api/handlers.py
(lines 536-552). -/
def _is_vault_repo (version : String) (vault_versions : List String)
    (repo : Option RepoData) : Bool :=
  decide (version ∈ vault_versions) ||
    (match repo with
     | some r => r.vault
     | none => false)

/-- Rendering of a Python f-string argument that may be None, as in the
iso_list branch of get_mirrors_list where repo_path is isos/{arch}. -/
def format_arch : Option String → String
  | some a => a
  | none => "None"

/-- Embedding of os.path.join on two components, for the URL components the
service joins (no drive letters; a component starting with a slash resets
the path). -/
def os_path_join (a b : String) : String :=
  if pyStartswith b ("/") then b
  else if a == "" || pyEndswith a ("/") then a ++ b
  else a ++ ("/") ++ b

/-- Embedding of get_mirrors_list from src/backend/api/handlers.py
(lines 593-666), returning the list of selected URLs (the Python function
returns their newline join; the vault branch returns the single joined
path).  Except.error () stands for raising UnknownRepoAttribute.  The
urljoin of a base URL ending in a slash with the relative path
version/repo_path is embedded as string concatenation, which is faithful
for the slash-free relative components the service builds.  The dist,
shuffle, geo_match, asn, cached and mirrors parameters feed the embedded
_get_nearest_mirrors exactly as in _get_nearest_mirrors; the filter flags
of the two call sites are absorbed into the mirrors oracle. -/
def get_mirrors_list
    (dist : Int × Int → Int × Int → Int)
    (shuffle : List MirrorData → List MirrorData)
    (geo_match : Option GeoData) (asn : Option String)
    (ip_address : Option IPNet) (cached : Option (List MirrorData))
    (mirrors : List MirrorData) (config : MainConfig)
    (version : String) (arch : Option String) (repository : Option String)
    (iso_list : Bool) : Except Unit (List String) :=
  let repoLookup : Option RepoData :=
    match repository with
    | none => none
    | some rname => config.repos.find? (fun rd => rd.name == rname)
  if !iso_list && repoLookup.isNone then Except.error ()
  else
    match get_allowed_version config.versions config.vault_versions
        config.duplicated_versions version with
    | Except.error e => Except.error e
    | Except.ok v =>
      let repo : Option RepoData := if iso_list then none else repoLookup
      let repo_path : String :=
        if iso_list then ("isos/") ++ format_arch arch
        else (repoLookup.map RepoData.path).getD ""
      if _is_vault_repo v config.vault_versions repo then
        Except.ok [os_path_join (os_path_join config.vault_mirror v) repo_path]
      else
        Except.ok ((_get_nearest_mirrors dist shuffle geo_match asn
          ip_address cached mirrors).map
          (fun m => m.mirror_url ++ ("/") ++ v ++ ("/") ++ repo_path))

/-- Dict lookup for the provider subnet map region to CIDR list, as used by
set_subnets_for_cloud_mirror.  The CIDR strings are carried in parsed form;
the function never inspects them. -/
def subnetsGet (subnets : List (String × List IPNet)) (region : String) :
    Option (List IPNet) :=
  (subnets.find? (fun p => p.1 == region)).map (·.2)

/-- Embedding of MirrorProcessor.set_subnets_for_cloud_mirror from
src/backend/api/mirror_processor.py (lines 142-158).  cloud_regions is the
comma split of the lower-cased cloud_region string; the guard returns the
mirror unchanged unless cloud_type is aws or azure; otherwise subnets is
replaced by the concatenation, in region order, of the provider lists of
the regions present in the subnet map. -/
def set_subnets_for_cloud_mirror (subnets : List (String × List IPNet))
    (mirror_info : MirrorData) : MirrorData :=
  let cloud_regions := pySplit (pyLower mirror_info.cloud_region) (Char.ofNat 44)
  let cloud_type := mirror_info.cloud_type
  if cloud_regions.isEmpty || !(cloud_type == "aws" || cloud_type == "azure")
  then mirror_info
  else
    { mirror_info with
      subnets := (cloud_regions.filter
        (fun r => (subnetsGet subnets r).isSome)).flatMap
        (fun r => (subnetsGet subnets r).getD []) }

/-- Columns of the persisted Mirror row that the claims inspect
(src/backend/db/models.py, table Mirror). -/
structure MirrorRow where
  name : String
  status : String
  private_ : Bool
  cloud_type : String
  has_full_iso_set : Bool
  deriving Repr, DecidableEq

/-- Projection from a processed mirror to its persisted row. -/
def to_mirror_row (m : MirrorData) : MirrorRow :=
  MirrorRow.mk m.name m.status m.private_ m.cloud_type m.has_full_iso_set

/-- Commit of src/backend/update_mirrors.py update_mirrors_handler
(lines 121-206): after delete-all, every processed mirror is inserted, with
no condition on ip or status. -/
def update_mirrors_commit (all_mirrors : List MirrorData) : List MirrorRow :=
  all_mirrors.map to_mirror_row

/-- Commit of src/backend/api/handlers.py update_mirrors_handler
(lines 348-399): mirrors whose ip is Unknown or None, or whose status is
neither ok nor expired, are skipped (continue) and never inserted. -/
def handlers_commit (all_mirrors : List MirrorData) : List MirrorRow :=
  (all_mirrors.filter (fun m =>
    !(m.ip == some ("Unknown") || m.ip == none) &&
      (m.status == "ok" || m.status == "expired"))).map to_mirror_row

/-- Embedding of the filter axes of get_all_mirrors_db from
src/backend/api/handlers.py (lines 482-533), in source order: private,
full ISO set, working, cloud. -/
def get_all_mirrors_db_filter (get_working_mirrors : Bool)
    (get_without_cloud_mirrors : Bool) (get_without_private_mirrors : Bool)
    (get_mirrors_with_full_set_of_isos : Bool) (rows : List MirrorRow) :
    List MirrorRow :=
  let rows1 := if get_without_private_mirrors then
    rows.filter (fun r => !r.private_) else rows
  let rows2 := if get_mirrors_with_full_set_of_isos then
    rows1.filter (fun r => r.has_full_iso_set) else rows1
  let rows3 := if get_working_mirrors then
    rows2.filter (fun r => r.status == "ok") else rows2
  let rows4 := if get_without_cloud_mirrors then
    rows3.filter (fun r => r.cloud_type == "") else rows3
  rows4

/-- Degenerate distance oracle used for concrete evaluations: every pair of
coordinates is 0 km apart. -/
def dist0 : Int × Int → Int × Int → Int := fun _ _ => 0

/-- Identity shuffle used for concrete evaluations: random.shuffle may
produce any permutation, the identity included. -/
def shuffleId : List MirrorData → List MirrorData := fun l => l

/-- Decidable check that a list of distance-annotated mirrors is sorted by
the key tuple (mirror country not equal to the client country, distance),
the sort key of sort_mirrors_by_distance_and_country. -/
def isSortedByKey (country : String) : List MirrorWithDistance → Bool
  | [] => true
  | [_] => true
  | a :: b :: rest => sortKeyLE country a b && isSortedByKey country (b :: rest)

/-- A baseline mirror record for building concrete test mirrors: public,
working, no network data, located at the origin. -/
def baseMirror : MirrorData :=
  { name := "m0"
    status := "ok"
    private_ := false
    monopoly := false
    asn := []
    subnets := []
    cloud_type := ""
    cloud_region := ""
    mirror_url := "http://m0.example"
    ip := some ("1.2.3.4")
    has_full_iso_set := false
    country := "US"
    latitude := 0
    longitude := 0 }

/-- Concrete service configuration for the C1 examples: one vault version 7,
no active versions, and a BaseOS repo whose path carries the literal
basearch placeholder. -/
def exC1config : MainConfig :=
  { versions := []
    duplicated_versions := []
    vault_versions := ["7"]
    vault_mirror := "https://vault.example"
    repos := [RepoData.mk ("BaseOS") ("BaseOS/$basearch/os") false] }

/-- Concrete GCP mirror for the C7 examples. -/
def exC7gcp : MirrorData :=
  { baseMirror with
    cloud_type := "gcp"
    cloud_region := "us-west1"
    subnets := [IPNet.mk 4 1 1] }

/-- Concrete AWS mirror for the C7 examples; the region is upper-case in the
mirror declaration and lower-cased by the processing step. -/
def exC7aws : MirrorData :=
  { baseMirror with
    cloud_type := "aws"
    cloud_region := "US-EAST-1"
    subnets := [IPNet.mk 4 1 1] }

/-- Concrete mirror whose probing failed, for the C8 examples. -/
def exC8failed : MirrorData :=
  { baseMirror with
    status := "mirror is not available because of timeout"
    ip := some ("9.9.9.9") }

end Mirrors

namespace Mirrors

/-! Helper lemmas shared by the claim theorems. -/

/-- The subnet-containment loop never raises: on parsed networks the version
guard shields every subnet_of call. -/
theorem is_ip_in_any_subnet_isSome (ip : IPNet) (subnets : List IPNet) :
    (is_ip_in_any_subnet ip subnets).isSome = true := by
  induction subnets with
  | nil => rfl
  | cons s rest ih =>
    by_cases h : (ip.version == s.version) = true
    · have hv : ip.version = s.version := eq_of_beq h
      have hs : subnet_of ip s =
          some (decide (s.addr ≤ ip.addr ∧ s.bcast ≥ ip.bcast)) := by
        simp [subnet_of, hv]
      simp only [is_ip_in_any_subnet, if_pos h, hs]
      cases hd : decide (s.addr ≤ ip.addr ∧ s.bcast ≥ ip.bcast) with
      | false => simpa using ih
      | true => rfl
    · simpa only [is_ip_in_any_subnet, if_neg h] using ih

/-- When the subnet-containment loop reports a match, the matching subnet
has the same IP version as the address and contains its integer range. -/
theorem is_ip_in_any_subnet_sound (ip : IPNet) (subnets : List IPNet)
    (h : is_ip_in_any_subnet ip subnets = some true) :
    ∃ s ∈ subnets, s.version = ip.version ∧ s.addr ≤ ip.addr ∧
      ip.bcast ≤ s.bcast := by
  induction subnets with
  | nil => simp [is_ip_in_any_subnet] at h
  | cons s rest ih =>
    by_cases hb : (ip.version == s.version) = true
    · have hv : ip.version = s.version := eq_of_beq hb
      have hs : subnet_of ip s =
          some (decide (s.addr ≤ ip.addr ∧ s.bcast ≥ ip.bcast)) := by
        simp [subnet_of, hv]
      rw [is_ip_in_any_subnet, if_pos hb, hs] at h
      cases hd : decide (s.addr ≤ ip.addr ∧ s.bcast ≥ ip.bcast) with
      | false =>
        rw [hd] at h
        obtain ⟨t, ht, h1, h2, h3⟩ := ih h
        exact ⟨t, List.mem_cons_of_mem s ht, h1, h2, h3⟩
      | true =>
        have hp := of_decide_eq_true hd
        exact ⟨s, List.mem_cons_self s rest, hv.symm, hp.1, hp.2⟩
    · rw [is_ip_in_any_subnet, if_neg hb] at h
      obtain ⟨t, ht, h1, h2, h3⟩ := ih h
      exact ⟨t, List.mem_cons_of_mem s ht, h1, h2, h3⟩

/-- A key that appears in a dict has a dict value. -/
theorem dictGet_isSome_of_key_mem {d : List (String × String)}
    {k v : String} (h : (k, v) ∈ d) : (dictGet d k).isSome = true := by
  rw [dictGet]
  rcases hf : d.find? (fun p => p.1 == k) with _ | q
  · have := List.find?_eq_none.mp hf (k, v) h
    simp at this
  · simp [hf]

/-- Key membership in a dict coincides with the lookup finding a value. -/
theorem dictHasKey_iff_isSome (d : List (String × String)) (k : String) :
    dictHasKey d k = true ↔ (dictGet d k).isSome = true := by
  simp [dictHasKey, dictGet, List.any_eq_true, List.find?_isSome,
    Option.isSome_map']

/-! Claim C10. -/

/-- C10: for every parsed IP address and every list of parsed subnets,
is_ip_in_any_subnet returns a boolean without raising, and a reported match
always comes from a subnet of the same IP version containing the address:
an IPv4 address is never reported inside an IPv6 subnet and vice versa. -/
theorem C10_is_ip_in_any_subnet_safe (ip : IPNet) (subnets : List IPNet) :
    (is_ip_in_any_subnet ip subnets).isSome = true ∧
    (is_ip_in_any_subnet ip subnets = some true →
      ∃ s ∈ subnets, s.version = ip.version ∧ s.addr ≤ ip.addr ∧
        ip.bcast ≤ s.bcast) :=
  ⟨is_ip_in_any_subnet_isSome ip subnets,
    is_ip_in_any_subnet_sound ip subnets⟩

/-- Witness for C10 at a concrete address and subnet list. -/
theorem C10_is_ip_in_any_subnet_safe_witness :
    (is_ip_in_any_subnet (IPNet.mk 4 5 5) [IPNet.mk 4 0 255]).isSome = true ∧
    ∃ s ∈ [IPNet.mk 4 0 255], s.version = (IPNet.mk 4 5 5).version ∧
      s.addr ≤ (IPNet.mk 4 5 5).addr ∧ (IPNet.mk 4 5 5).bcast ≤ s.bcast :=
  ⟨(C10_is_ip_in_any_subnet_safe (IPNet.mk 4 5 5) [IPNet.mk 4 0 255]).1,
    (C10_is_ip_in_any_subnet_safe (IPNet.mk 4 5 5) [IPNet.mk 4 0 255]).2
      (by decide)⟩

/-! Claim C9. -/

/-- C9: merging offline geodata into a mirror geolocation never overwrites
an already-set field: for each of continent, country, state_province and
city, a field that is set and not Unknown keeps its existing value, and a
field that is Unknown or unset (None) takes the new value. -/
theorem C9_geolocation_merge_write_once (g new : GeoLocationData) :
    ((g.continent ≠ some ("Unknown") ∧ g.continent ≠ none) →
      (update_from_existing_object g new).continent = g.continent) ∧
    ((g.country ≠ some ("Unknown") ∧ g.country ≠ none) →
      (update_from_existing_object g new).country = g.country) ∧
    ((g.state_province ≠ some ("Unknown") ∧ g.state_province ≠ none) →
      (update_from_existing_object g new).state_province =
        g.state_province) ∧
    ((g.city ≠ some ("Unknown") ∧ g.city ≠ none) →
      (update_from_existing_object g new).city = g.city) ∧
    ((g.continent = some ("Unknown") ∨ g.continent = none) →
      (update_from_existing_object g new).continent = new.continent) ∧
    ((g.country = some ("Unknown") ∨ g.country = none) →
      (update_from_existing_object g new).country = new.country) ∧
    ((g.state_province = some ("Unknown") ∨ g.state_province = none) →
      (update_from_existing_object g new).state_province =
        new.state_province) ∧
    ((g.city = some ("Unknown") ∨ g.city = none) →
      (update_from_existing_object g new).city = new.city) := by
  refine ⟨fun h => ?_, fun h => ?_, fun h => ?_, fun h => ?_,
    fun h => ?_, fun h => ?_, fun h => ?_, fun h => ?_⟩ <;>
    simp only [update_from_existing_object, setattrField] <;>
    first
      | (rw [if_neg]; exact fun hc => by rcases hc with hc | hc <;>
          simp [hc] at h)
      | (rw [if_pos h])

/-- Witness for C9: a set continent survives the merge while an Unknown
state_province takes the merged value. -/
theorem C9_geolocation_merge_write_once_witness :
    (update_from_existing_object
      (GeoLocationData.mk (some ("Europe")) (some ("DE"))
        (some ("Unknown")) none)
      (GeoLocationData.mk (some ("Asia")) (some ("JP"))
        (some ("Bavaria")) (some ("Munich")))).continent = some ("Europe") ∧
    (update_from_existing_object
      (GeoLocationData.mk (some ("Europe")) (some ("DE"))
        (some ("Unknown")) none)
      (GeoLocationData.mk (some ("Asia")) (some ("JP"))
        (some ("Bavaria")) (some ("Munich")))).state_province =
      some ("Bavaria") := by
  obtain ⟨hk, -, -, -, -, -, hs, -⟩ :=
    C9_geolocation_merge_write_once
      (GeoLocationData.mk (some ("Europe")) (some ("DE"))
        (some ("Unknown")) none)
      (GeoLocationData.mk (some ("Asia")) (some ("JP"))
        (some ("Bavaria")) (some ("Munich")))
  exact ⟨hk (by decide), hs (by decide)⟩

/-! Claim C5. -/

/-- C5: get_allowed_version maps an active version that is a key of
duplicated_versions to its dict value; maps a version that is neither
active nor vault but extends some key of duplicated_versions to that key
value (in particular 9.5 with duplicated_versions mapping 9 to 9.5 and
versions [9] normalizes to 9.5); and raises UnknownRepoAttribute exactly
when the version is neither active, nor vault, nor extends such a key. -/
theorem C5_get_allowed_version_spec :
    (∀ (versions vault_versions : List String)
      (dup : List (String × String)) (version d : String),
      version ∈ versions → dictGet dup version = some d →
      get_allowed_version versions vault_versions dup version =
        Except.ok d) ∧
    (∀ (versions vault_versions : List String)
      (dup : List (String × String)) (version : String),
      version ∉ versions → version ∉ vault_versions →
      (∃ p ∈ dup, pyStartswith version p.1 = true) →
      ∃ k v, (k, v) ∈ dup ∧ pyStartswith version k = true ∧
        get_allowed_version versions vault_versions dup version =
          Except.ok v) ∧
    (get_allowed_version ["9"] [] [("9", "9.5")] ("9.5") =
      Except.ok ("9.5")) ∧
    (∀ (versions vault_versions : List String)
      (dup : List (String × String)) (version : String),
      get_allowed_version versions vault_versions dup version =
        Except.error () ↔
      version ∉ versions ∧ version ∉ vault_versions ∧
        ∀ p ∈ dup, pyStartswith version p.1 = false) := by
  refine ⟨?_, ?_, ?_, ?_⟩
  · intro versions vault_versions dup version d hmem hget
    have hkey : dictHasKey dup version = true :=
      (dictHasKey_iff_isSome dup version).mpr (by rw [hget]; rfl)
    rw [get_allowed_version, if_neg (fun hc => hc.1 hmem),
      if_pos ⟨hmem, hkey⟩, hget]
  · intro versions vault_versions dup version h1 h2 ⟨p, hp, hps⟩
    rw [get_allowed_version, if_pos ⟨h1, h2⟩]
    rcases hf : dup.find? (fun q => pyStartswith version q.1) with _ | q
    · exact absurd (List.find?_eq_none.mp hf p hp) (by simp [hps])
    · have hqmem : q ∈ dup := List.mem_of_find?_eq_some hf
      have hqpre : pyStartswith version q.1 = true := by
        have := List.find?_some hf
        simpa using this
      rcases hg : dictGet dup q.1 with _ | v
      · have := dictGet_isSome_of_key_mem (k := q.1) (v := q.2)
          (by simpa using hqmem)
        rw [hg] at this
        cases this
      · have hg2 := hg
        rw [dictGet] at hg2
        obtain ⟨r, hr, hrv⟩ := Option.map_eq_some'.mp hg2
        have hrmem : r ∈ dup := List.mem_of_find?_eq_some hr
        have hrk : (r.1 == q.1) = true := by
          have := List.find?_some hr
          simpa using this
        have hrk2 : r.1 = q.1 := eq_of_beq hrk
        refine ⟨r.1, v, ?_, ?_, ?_⟩
        · rw [← hrv]
          simpa using hrmem
        · rw [hrk2]
          exact hqpre
        · simp [hf, hg]
  · rfl
  · intro versions vault_versions dup version
    constructor
    · intro herr
      by_cases hA : version ∉ versions ∧ version ∉ vault_versions
      · rw [get_allowed_version, if_pos hA] at herr
        rcases hf : dup.find? (fun q => pyStartswith version q.1) with _ | q
        · exact ⟨hA.1, hA.2, fun p hp => by
            have := List.find?_eq_none.mp hf p hp
            simpa using this⟩
        · exfalso
          simp only [hf] at herr
          have hqmem : q ∈ dup := List.mem_of_find?_eq_some hf
          rcases hg : dictGet dup q.1 with _ | v
          · have := dictGet_isSome_of_key_mem (k := q.1) (v := q.2)
              (by simpa using hqmem)
            rw [hg] at this
            cases this
          · simp only [hg] at herr
            exact Except.noConfusion herr
      · exfalso
        rw [get_allowed_version, if_neg hA] at herr
        by_cases hB : version ∈ versions ∧ dictHasKey dup version = true
        · rw [if_pos hB] at herr
          rcases hg : dictGet dup version with _ | v
          · have := (dictHasKey_iff_isSome dup version).mp hB.2
            rw [hg] at this
            cases this
          · simp only [hg] at herr
            exact Except.noConfusion herr
        · rw [if_neg hB] at herr
          exact Except.noConfusion herr
    · intro ⟨h1, h2, h3⟩
      rw [get_allowed_version, if_pos ⟨h1, h2⟩]
      rcases hf : dup.find? (fun q => pyStartswith version q.1) with _ | q
      · simp [hf]
      · have hqmem : q ∈ dup := List.mem_of_find?_eq_some hf
        have hqpre : pyStartswith version q.1 = true := by
          have := List.find?_some hf
          simpa using this
        rw [h3 q hqmem] at hqpre
        cases hqpre

/-- Witness for C5: the duplicated active version 9 normalizes to 9.5 and
an unknown version 1 is rejected. -/
theorem C5_get_allowed_version_spec_witness :
    get_allowed_version ["9"] [] [("9", "9.5")] ("9") =
      Except.ok ("9.5") ∧
    (get_allowed_version ["9"] [] [("9", "9.5")] ("1") =
      Except.error () ↔ ("1" : String) ∉ ["9"] ∧ ("1" : String) ∉ ([] : List String) ∧
        ∀ p ∈ [(("9" : String), ("9.5" : String))], pyStartswith ("1") p.1 = false) :=
  ⟨C5_get_allowed_version_spec.1 ["9"] [] [("9", "9.5")] ("9") ("9.5")
    (by decide) (by decide),
    C5_get_allowed_version_spec.2.2.2 ["9"] [] [("9", "9.5")] ("1")⟩

/-! Claim C6. -/

/-- Pointwise, exceeding the radius is the boolean negation of being within
it. -/
theorem decide_lt_eq_not_decide_le (R d : Int) :
    decide (R < d) = !decide (d ≤ R) := by
  by_cases h : d ≤ R
  · simp [h, Int.not_lt.mpr h]
  · simp [h, Int.lt_iff_le_not_le, le_of_not_le h]

/-- The four radius and country buckets of randomize_mirrors_within_distance
partition the input: their concatenation is a permutation of the mirrors of
the input list. -/
theorem randomize_buckets_perm (country : String) (R : Int)
    (l : List MirrorWithDistance) :
    ((l.filter (fun p => p.distance ≤ R && p.mirror.country == country)).map
        (·.mirror) ++
      (l.filter (fun p => R < p.distance && p.mirror.country == country)).map
        (·.mirror) ++
      (l.filter (fun p =>
        p.distance ≤ R && !(p.mirror.country == country))).map (·.mirror) ++
      (l.filter (fun p =>
        R < p.distance && !(p.mirror.country == country))).map
        (·.mirror)).Perm (l.map (·.mirror)) := by
  have h12 : (l.filter (fun p =>
      p.distance ≤ R && p.mirror.country == country) ++
      l.filter (fun p => R < p.distance && p.mirror.country == country)).Perm
      (l.filter (fun p => p.mirror.country == country)) := by
    have he : l.filter (fun p => R < p.distance && p.mirror.country == country)
        = l.filter (fun p =>
          !decide (p.distance ≤ R) && p.mirror.country == country) := by
      apply List.filter_congr
      intro p _
      rw [decide_lt_eq_not_decide_le]
    have h1 : l.filter (fun p =>
        p.distance ≤ R && p.mirror.country == country) =
        (l.filter (fun p => p.mirror.country == country)).filter
          (fun p => decide (p.distance ≤ R)) := by
      rw [List.filter_filter]
    have h2 : l.filter (fun p =>
        !decide (p.distance ≤ R) && p.mirror.country == country) =
        (l.filter (fun p => p.mirror.country == country)).filter
          (fun p => !decide (p.distance ≤ R)) := by
      rw [List.filter_filter]
    rw [he, h1, h2]
    exact List.filter_append_perm _ _
  have h34 : (l.filter (fun p =>
      p.distance ≤ R && !(p.mirror.country == country)) ++
      l.filter (fun p =>
        R < p.distance && !(p.mirror.country == country))).Perm
      (l.filter (fun p => !(p.mirror.country == country))) := by
    have he : l.filter (fun p =>
        R < p.distance && !(p.mirror.country == country))
        = l.filter (fun p =>
          !decide (p.distance ≤ R) && !(p.mirror.country == country)) := by
      apply List.filter_congr
      intro p _
      rw [decide_lt_eq_not_decide_le]
    have h1 : l.filter (fun p =>
        p.distance ≤ R && !(p.mirror.country == country)) =
        (l.filter (fun p => !(p.mirror.country == country))).filter
          (fun p => decide (p.distance ≤ R)) := by
      rw [List.filter_filter]
    have h2 : l.filter (fun p =>
        !decide (p.distance ≤ R) && !(p.mirror.country == country)) =
        (l.filter (fun p => !(p.mirror.country == country))).filter
          (fun p => !decide (p.distance ≤ R)) := by
      rw [List.filter_filter]
    rw [he, h1, h2]
    exact List.filter_append_perm _ _
  have hall : ((l.filter (fun p =>
      p.distance ≤ R && p.mirror.country == country) ++
      l.filter (fun p => R < p.distance && p.mirror.country == country)) ++
      (l.filter (fun p =>
        p.distance ≤ R && !(p.mirror.country == country)) ++
      l.filter (fun p =>
        R < p.distance && !(p.mirror.country == country)))).Perm l :=
    ((h12.append h34).trans (List.filter_append_perm _ l))
  have := hall.map (·.mirror)
  simpa [List.map_append, List.append_assoc] using this

/-- C6: applied to a list sorted by the key (mirror country differs from the
client country, distance), randomize_mirrors_within_distance concatenates,
in order, the shuffled in-country within-radius bucket, the in-country
beyond-radius bucket in sorted order, the shuffled out-of-country
within-radius bucket, and the out-of-country beyond-radius bucket in sorted
order; the result is a permutation of the input mirrors, and the radius
used by the callers is RANDOMIZE_WITHIN_KM = 500 km. -/
theorem C6_randomize_within_distance
    (shuffle : List MirrorData → List MirrorData)
    (hshuffle : ∀ l, (shuffle l).Perm l)
    (country : String) (mirrors : List MirrorWithDistance)
    (hsorted : isSortedByKey country mirrors = true) :
    randomize_mirrors_within_distance shuffle mirrors country
        RANDOMIZE_WITHIN_KM =
      shuffle ((mirrors.filter (fun p =>
        p.distance ≤ RANDOMIZE_WITHIN_KM &&
          p.mirror.country == country)).map (·.mirror)) ++
      (mirrors.filter (fun p => RANDOMIZE_WITHIN_KM < p.distance &&
        p.mirror.country == country)).map (·.mirror) ++
      shuffle ((mirrors.filter (fun p =>
        p.distance ≤ RANDOMIZE_WITHIN_KM &&
          !(p.mirror.country == country))).map (·.mirror)) ++
      (mirrors.filter (fun p => RANDOMIZE_WITHIN_KM < p.distance &&
        !(p.mirror.country == country))).map (·.mirror) ∧
    (randomize_mirrors_within_distance shuffle mirrors country
      RANDOMIZE_WITHIN_KM).Perm (mirrors.map (·.mirror)) ∧
    RANDOMIZE_WITHIN_KM = 500 := by
  refine ⟨rfl, ?_, rfl⟩
  have hperm := randomize_buckets_perm country RANDOMIZE_WITHIN_KM mirrors
  have hsh : (randomize_mirrors_within_distance shuffle mirrors country
      RANDOMIZE_WITHIN_KM).Perm
      ((mirrors.filter (fun p => p.distance ≤ RANDOMIZE_WITHIN_KM &&
        p.mirror.country == country)).map (·.mirror) ++
      (mirrors.filter (fun p => RANDOMIZE_WITHIN_KM < p.distance &&
        p.mirror.country == country)).map (·.mirror) ++
      (mirrors.filter (fun p => p.distance ≤ RANDOMIZE_WITHIN_KM &&
        !(p.mirror.country == country))).map (·.mirror) ++
      (mirrors.filter (fun p => RANDOMIZE_WITHIN_KM < p.distance &&
        !(p.mirror.country == country))).map (·.mirror)) := by
    exact ((((hshuffle _).append (List.Perm.refl _)).append
      (hshuffle _)).append (List.Perm.refl _))
  exact hsh.trans hperm

/-- Witness for C6 on a concrete sorted two-mirror list with the identity
shuffle. -/
theorem C6_randomize_within_distance_witness :
    (randomize_mirrors_within_distance shuffleId
      [MirrorWithDistance.mk 100 baseMirror,
        MirrorWithDistance.mk 600 baseMirror] ("US")
      RANDOMIZE_WITHIN_KM).Perm
      ([MirrorWithDistance.mk 100 baseMirror,
        MirrorWithDistance.mk 600 baseMirror].map (·.mirror)) :=
  (C6_randomize_within_distance shuffleId (fun l => List.Perm.refl l) ("US")
    [MirrorWithDistance.mk 100 baseMirror,
      MirrorWithDistance.mk 600 baseMirror] (by decide)).2.1

/-! Claims C2, C3, C4: the network-affinity and geographic passes. -/

/-- When the matching loop finishes without a monopoly early return, the
collected list consists exactly of the working mirrors that match the
client by ASN or subnet, in list order. -/
theorem network_suitable_loop_ok_eq_filter (asn : Option String) (ip : IPNet)
    (l : List MirrorData) (s : List MirrorData)
    (h : network_suitable_loop asn ip l = Except.ok s) :
    s = l.filter (fun m => m.status == "ok" && mirror_network_match asn ip m) := by
  induction l generalizing s with
  | nil =>
    simp only [network_suitable_loop] at h
    cases h
    rfl
  | cons m rest ih =>
    simp only [network_suitable_loop] at h
    by_cases h1 : (m.status == "ok") = true
    · rw [if_neg (by simp [h1])] at h
      by_cases h2 : mirror_network_match asn ip m = true
      · rw [if_pos h2] at h
        by_cases h3 : m.monopoly = true
        · rw [if_pos h3] at h
          exact Except.noConfusion h
        · rw [if_neg h3] at h
          rcases hr : network_suitable_loop asn ip rest with e | s2
          · rw [hr] at h
            exact Except.noConfusion h
          · rw [hr] at h
            cases h
            rw [List.filter_cons_of_pos (by simp [h1, h2]), ih s2 hr]
      · rw [if_neg h2] at h
        rw [List.filter_cons_of_neg (by simp [h2]), ih s h]
    · rw [if_pos (by simp [h1])] at h
      rw [List.filter_cons_of_neg (by simp [h1]), ih s h]

/-- When no working mirror matches the client, the matching loop collects
nothing and does not return early. -/
theorem network_suitable_loop_no_match (asn : Option String) (ip : IPNet)
    (l : List MirrorData)
    (h : ∀ m ∈ l, ¬(m.status = "ok" ∧ mirror_network_match asn ip m = true)) :
    network_suitable_loop asn ip l = Except.ok [] := by
  induction l with
  | nil => rfl
  | cons m rest ih =>
    have hrest := ih (fun m2 hm2 => h m2 (List.mem_cons_of_mem m hm2))
    simp only [network_suitable_loop]
    by_cases h1 : (m.status == "ok") = true
    · rw [if_neg (by simp [h1])]
      have h2 : mirror_network_match asn ip m = false := by
        by_contra hc
        exact h m (List.mem_cons_self m rest)
          ⟨by simpa using h1, by simpa using hc⟩
      rw [if_neg (by simp [h2])]
      exact hrest
    · rw [if_pos (by simp [h1])]
      exact hrest

/-- The matching loop returns early with the first working, matching,
monopoly mirror, whatever follows it in the list. -/
theorem network_suitable_loop_first_monopoly (asn : Option String)
    (ip : IPNet) (pre post : List MirrorData) (m : MirrorData)
    (hok : m.status = "ok") (hmatch : mirror_network_match asn ip m = true)
    (hmono : m.monopoly = true)
    (hpre : ∀ m2 ∈ pre,
      ¬(m2.status = "ok" ∧ mirror_network_match asn ip m2 = true ∧
        m2.monopoly = true)) :
    network_suitable_loop asn ip (pre ++ m :: post) = Except.error m := by
  induction pre with
  | nil =>
    simp only [List.nil_append, network_suitable_loop]
    rw [if_neg (by simp [hok]), if_pos hmatch, if_pos hmono]
  | cons m2 pre ih =>
    have hrest := ih (fun m3 hm3 => hpre m3 (List.mem_cons_of_mem m2 hm3))
    simp only [List.cons_append, network_suitable_loop]
    by_cases h1 : (m2.status == "ok") = true
    · rw [if_neg (by simp [h1])]
      by_cases h2 : mirror_network_match asn ip m2 = true
      · rw [if_pos h2]
        have h3 : m2.monopoly = false := by
          by_contra hc
          exact hpre m2 (List.mem_cons_self m2 pre)
            ⟨by simpa using h1, h2, by simpa using hc⟩
        rw [if_neg (by simp [h3])]
        have hrest2 : network_suitable_loop asn ip (pre.append (m :: post)) =
            Except.error m := hrest
        rw [hrest2]
        rfl
      · rw [if_neg h2]
        exact hrest
    · rw [if_pos (by simp [h1])]
      exact hrest

/-- C2 (amended): if a mirror m has monopoly=true and status ok, the client
IP lies in one of its subnets or the client ASN equals one of its declared
ASNs, and no mirror earlier in the filtered list is also a working,
matching monopoly mirror, then the network-affinity pass and the whole
selection return exactly the one-element list holding m. -/
theorem C2_monopoly_selects_single_mirror
    (dist : Int × Int → Int × Int → Int)
    (shuffle : List MirrorData → List MirrorData)
    (geo_match : Option GeoData) (asn : Option String) (ip : IPNet)
    (pre post : List MirrorData) (m : MirrorData)
    (hok : m.status = "ok") (hmatch : mirror_network_match asn ip m = true)
    (hmono : m.monopoly = true)
    (hpre : ∀ m2 ∈ pre,
      ¬(m2.status = "ok" ∧ mirror_network_match asn ip m2 = true ∧
        m2.monopoly = true)) :
    _get_nearest_mirrors_by_network_data dist shuffle geo_match asn ip
        (pre ++ m :: post) = [m] ∧
    _get_nearest_mirrors dist shuffle geo_match asn (some ip) none
        (pre ++ m :: post) = [m] := by
  have hloop := network_suitable_loop_first_monopoly asn ip pre post m hok
    hmatch hmono hpre
  have hnet : _get_nearest_mirrors_by_network_data dist shuffle geo_match asn
      ip (pre ++ m :: post) = [m] := by
    unfold _get_nearest_mirrors_by_network_data
    rw [hloop]
  refine ⟨hnet, ?_⟩
  have hmain : _get_nearest_mirrors dist shuffle geo_match asn (some ip) none
      (pre ++ m :: post) =
      if (_get_nearest_mirrors_by_network_data dist shuffle geo_match asn ip
          (pre ++ m :: post)).isEmpty then
        _get_nearest_mirrors_by_geo_data dist shuffle geo_match
          (pre ++ m :: post)
      else
        _get_nearest_mirrors_by_network_data dist shuffle geo_match asn ip
          (pre ++ m :: post) := by
    unfold _get_nearest_mirrors
    rfl
  rw [hmain, hnet]
  rfl

/-- Counterexample to C2 as stated: a monopoly mirror whose subnets contain
the client IP but whose status is expired is skipped, and the selection is
empty rather than the one-element list holding it. -/
theorem C2_counterexample :
    _get_nearest_mirrors_by_network_data dist0 shuffleId none none
        (IPNet.mk 4 5 5)
        [{ baseMirror with
            status := "expired"
            monopoly := true
            subnets := [IPNet.mk 4 0 255] }] = [] ∧
    ([] : List MirrorData) ≠
      [{ baseMirror with
          status := "expired"
          monopoly := true
          subnets := [IPNet.mk 4 0 255] }] := by
  constructor
  · rfl
  · decide

/-- Witness for C2 on a one-element list holding a working, matching
monopoly mirror. -/
theorem C2_monopoly_selects_single_mirror_witness :
    _get_nearest_mirrors_by_network_data dist0 shuffleId none none
        (IPNet.mk 4 5 5)
        [{ baseMirror with
            monopoly := true
            subnets := [IPNet.mk 4 0 255] }] =
      [{ baseMirror with
          monopoly := true
          subnets := [IPNet.mk 4 0 255] }] :=
  (C2_monopoly_selects_single_mirror dist0 shuffleId none none
    (IPNet.mk 4 5 5) [] []
    { baseMirror with
        monopoly := true
        subnets := [IPNet.mk 4 0 255] }
    rfl (by decide) rfl (by simp)).1

/-- C3 (amended): the geographic pass returns at most
LENGTH_GEO_MIRRORS_LIST mirrors whenever the client has GeoIP data, and on
a GeoIP miss it returns the whole filtered list untruncated; the
network-affinity pass returns at most the larger of
LENGTH_CLOUD_MIRRORS_LIST and the number of working mirrors matching the
client by subnet or ASN. -/
theorem C3_pass_length_bounds :
    (∀ (dist : Int × Int → Int × Int → Int)
      (shuffle : List MirrorData → List MirrorData) (g : GeoData)
      (mirrors : List MirrorData),
      (_get_nearest_mirrors_by_geo_data dist shuffle (some g)
        mirrors).length ≤ LENGTH_GEO_MIRRORS_LIST) ∧
    (∀ (dist : Int × Int → Int × Int → Int)
      (shuffle : List MirrorData → List MirrorData)
      (mirrors : List MirrorData),
      _get_nearest_mirrors_by_geo_data dist shuffle none mirrors = mirrors) ∧
    (∀ (dist : Int × Int → Int × Int → Int)
      (shuffle : List MirrorData → List MirrorData)
      (geo_match : Option GeoData) (asn : Option String) (ip : IPNet)
      (mirrors : List MirrorData),
      (_get_nearest_mirrors_by_network_data dist shuffle geo_match asn ip
          mirrors).length ≤
        max LENGTH_CLOUD_MIRRORS_LIST
          (mirrors.filter (fun m => m.status == "ok" &&
            mirror_network_match asn ip m)).length) := by
  refine ⟨?_, ?_, ?_⟩
  · intro dist shuffle g mirrors
    simp only [_get_nearest_mirrors_by_geo_data]
    exact List.length_take_le _ _
  · intro dist shuffle mirrors
    rfl
  · intro dist shuffle geo_match asn ip mirrors
    rcases hl : network_suitable_loop asn ip mirrors with e | s
    · have heq : _get_nearest_mirrors_by_network_data dist shuffle geo_match
          asn ip mirrors = [e] := by
        unfold _get_nearest_mirrors_by_network_data
        rw [hl]
      rw [heq]
      exact le_trans (by norm_num [LENGTH_CLOUD_MIRRORS_LIST])
        (le_max_left _ _)
    · have hs := network_suitable_loop_ok_eq_filter asn ip mirrors s hl
      rcases geo_match with _ | g
      · have heq : _get_nearest_mirrors_by_network_data dist shuffle none
            asn ip mirrors = s := by
          unfold _get_nearest_mirrors_by_network_data
          rw [hl]
        rw [heq]
        exact hs ▸ le_max_right _ _
      · have heq : _get_nearest_mirrors_by_network_data dist shuffle (some g)
            asn ip mirrors =
            if 1 ≤ s.length ∧ s.length < LENGTH_CLOUD_MIRRORS_LIST then
              s ++ (randomize_mirrors_within_distance shuffle
                (sort_mirrors_by_distance_and_country dist
                  (g.latitude, g.longitude)
                  (mirrors.filter
                    (fun m => _is_additional_mirrors_suitable m s))
                  g.country)
                g.country RANDOMIZE_WITHIN_KM).take
                (LENGTH_CLOUD_MIRRORS_LIST - s.length)
            else s := by
          unfold _get_nearest_mirrors_by_network_data
          rw [hl]
        rw [heq]
        by_cases hcond : 1 ≤ s.length ∧ s.length < LENGTH_CLOUD_MIRRORS_LIST
        · rw [if_pos hcond]
          refine le_trans ?_ (le_max_left _ _)
          rw [List.length_append]
          have htake := List.length_take_le
            (LENGTH_CLOUD_MIRRORS_LIST - s.length)
            (randomize_mirrors_within_distance shuffle
              (sort_mirrors_by_distance_and_country dist
                (g.latitude, g.longitude)
                (mirrors.filter
                  (fun m => _is_additional_mirrors_suitable m s))
                g.country)
              g.country RANDOMIZE_WITHIN_KM)
          omega
        · rw [if_neg hcond]
          exact hs ▸ le_max_right _ _

/-- Counterexample to C3 as stated: on a GeoIP miss the geographic pass
returns the whole filtered list, here 11 mirrors, exceeding
LENGTH_GEO_MIRRORS_LIST = 10. -/
theorem C3_counterexample :
    ¬ ((_get_nearest_mirrors_by_geo_data dist0 shuffleId none
        (List.replicate 11 baseMirror)).length ≤ LENGTH_GEO_MIRRORS_LIST) := by
  decide

/-- C4 (amended): for a client IP with no GeoIP data matching no mirror by
subnet or ASN, the selection equals the whole filtered mirror list exactly
as fetched (get_all_mirrors returns it in random order), with no truncation
to LENGTH_GEO_MIRRORS_LIST. -/
theorem C4_no_geodata_full_list
    (dist : Int × Int → Int × Int → Int)
    (shuffle : List MirrorData → List MirrorData)
    (asn : Option String) (ip : IPNet) (mirrors : List MirrorData)
    (h : ∀ m ∈ mirrors,
      ¬(m.status = "ok" ∧ mirror_network_match asn ip m = true)) :
    _get_nearest_mirrors dist shuffle none asn (some ip) none mirrors =
      mirrors := by
  have hloop := network_suitable_loop_no_match asn ip mirrors h
  have hnet : _get_nearest_mirrors_by_network_data dist shuffle none asn ip
      mirrors = [] := by
    unfold _get_nearest_mirrors_by_network_data
    rw [hloop]
  have hmain : _get_nearest_mirrors dist shuffle none asn (some ip) none
      mirrors =
      if (_get_nearest_mirrors_by_network_data dist shuffle none asn ip
          mirrors).isEmpty then
        _get_nearest_mirrors_by_geo_data dist shuffle none mirrors
      else
        _get_nearest_mirrors_by_network_data dist shuffle none asn ip
          mirrors := by
    unfold _get_nearest_mirrors
    rfl
  rw [hmain, hnet]
  rfl

/-- Counterexample to C4 as stated: 11 mirrors, no GeoIP data, no network
match; the selection keeps all 11 mirrors instead of truncating to the
geographic limit. -/
theorem C4_counterexample :
    _get_nearest_mirrors dist0 shuffleId none none (some (IPNet.mk 4 5 5))
        none (List.replicate 11 baseMirror) ≠
      (List.replicate 11 baseMirror).take LENGTH_GEO_MIRRORS_LIST := by
  decide

/-- Witness for C4 on a concrete one-mirror list with no network match. -/
theorem C4_no_geodata_full_list_witness :
    _get_nearest_mirrors dist0 shuffleId none none (some (IPNet.mk 4 5 5))
        none [baseMirror] = [baseMirror] :=
  C4_no_geodata_full_list dist0 shuffleId none (IPNet.mk 4 5 5) [baseMirror]
    (by decide)

/-! Claim C1. -/

/-- C1 (amended): when the normalized version is a vault version, or the
requested repository is a vault repository, get_mirrors_list returns
exactly one URL, the os.path.join of the vault mirror base, the normalized
version and the repo path taken verbatim (no basearch substitution; for an
ISO list the repo path is isos/ followed by the formatted arch), and the
result is independent of the client, the cache and the mirror list, so no
mirror selection takes place. -/
theorem C1_vault_terminal :
    (∀ (dist : Int × Int → Int × Int → Int)
      (shuffle : List MirrorData → List MirrorData)
      (geo_match : Option GeoData) (asn : Option String)
      (ip_address : Option IPNet) (cached : Option (List MirrorData))
      (mirrors : List MirrorData) (config : MainConfig)
      (version : String) (arch : Option String) (rname : String)
      (r : RepoData) (v : String),
      config.repos.find? (fun rd => rd.name == rname) = some r →
      get_allowed_version config.versions config.vault_versions
        config.duplicated_versions version = Except.ok v →
      (v ∈ config.vault_versions ∨ r.vault = true) →
      get_mirrors_list dist shuffle geo_match asn ip_address cached mirrors
          config version arch (some rname) false =
        Except.ok [os_path_join (os_path_join config.vault_mirror v)
          r.path]) ∧
    (∀ (dist : Int × Int → Int × Int → Int)
      (shuffle : List MirrorData → List MirrorData)
      (geo_match : Option GeoData) (asn : Option String)
      (ip_address : Option IPNet) (cached : Option (List MirrorData))
      (mirrors : List MirrorData) (config : MainConfig)
      (version : String) (arch : Option String)
      (repository : Option String) (v : String),
      get_allowed_version config.versions config.vault_versions
        config.duplicated_versions version = Except.ok v →
      v ∈ config.vault_versions →
      get_mirrors_list dist shuffle geo_match asn ip_address cached mirrors
          config version arch repository true =
        Except.ok [os_path_join (os_path_join config.vault_mirror v)
          (("isos/") ++ format_arch arch)]) := by
  constructor
  · intro dist shuffle geo_match asn ip_address cached mirrors config version
      arch rname r v hfind hver hvault
    have hv : _is_vault_repo v config.vault_versions (some r) = true := by
      rcases hvault with h | h
      · simp [_is_vault_repo, h]
      · simp [_is_vault_repo, h]
    simp [get_mirrors_list, hfind, hver, hv]
  · intro dist shuffle geo_match asn ip_address cached mirrors config version
      arch repository v hver hvv
    have hv : _is_vault_repo v config.vault_versions none = true := by
      simp [_is_vault_repo, hvv]
    simp [get_mirrors_list, hver, hv]

/-- Counterexample to C1 as stated: a vault request with an arch given and a
repo path holding the basearch placeholder returns the placeholder
verbatim, not the arch-substituted URL the claim describes. -/
theorem C1_counterexample :
    get_mirrors_list dist0 shuffleId none none none none [] exC1config
        ("7") (some ("x86_64")) (some ("BaseOS")) false =
      Except.ok [("https://vault.example/7/BaseOS/$basearch/os")] ∧
    [("https://vault.example/7/BaseOS/$basearch/os")] ≠
      [("https://vault.example/7/BaseOS/x86_64/os")] := by
  constructor
  · rfl
  · decide

/-- Witness for C1 on the concrete vault configuration. -/
theorem C1_vault_terminal_witness :
    get_mirrors_list dist0 shuffleId none none none none [] exC1config
        ("7") (some ("x86_64")) (some ("BaseOS")) false =
      Except.ok [os_path_join (os_path_join exC1config.vault_mirror ("7"))
        (RepoData.mk ("BaseOS") ("BaseOS/$basearch/os") false).path] :=
  C1_vault_terminal.1 dist0 shuffleId none none none none [] exC1config
    ("7") (some ("x86_64")) ("BaseOS")
    (RepoData.mk ("BaseOS") ("BaseOS/$basearch/os") false) ("7")
    rfl rfl (Or.inl (by decide))

/-! Claim C7. -/

/-- The character split never produces an empty list of pieces. -/
theorem splitOnCharAux_ne_nil (sep : Char) (l : List Char) :
    splitOnCharAux sep l ≠ [] := by
  cases l with
  | nil => simp [splitOnCharAux]
  | cons c t =>
    simp only [splitOnCharAux]
    rcases h : splitOnCharAux sep t with _ | ⟨hd, tl⟩
    · simp
    · split_ifs <;> simp

/-- C7 (amended): for a mirror whose cloud_type is aws or azure, the
cloud-subnet step replaces the mirror subnets with the union, over the
comma-split lower-cased cloud regions present in the provider map, of the
provider CIDR lists, leaving the other fields unchanged; mirrors with
cloud_type gcp or oci are returned unchanged by this step. -/
theorem C7_cloud_subnets_replacement (subnets : List (String × List IPNet))
    (m : MirrorData)
    (hcloud : m.cloud_type = "aws" ∨ m.cloud_type = "azure") :
    (∀ s : IPNet,
      s ∈ (set_subnets_for_cloud_mirror subnets m).subnets ↔
      ∃ r ∈ pySplit (pyLower m.cloud_region) (Char.ofNat 44),
        ∃ l, subnetsGet subnets r = some l ∧ s ∈ l) ∧
    (set_subnets_for_cloud_mirror subnets m).name = m.name ∧
    (set_subnets_for_cloud_mirror subnets m).status = m.status ∧
    (set_subnets_for_cloud_mirror subnets m).cloud_type = m.cloud_type := by
  have h1 : (pySplit (pyLower m.cloud_region) (Char.ofNat 44)).isEmpty =
      false := by
    have hne := splitOnCharAux_ne_nil (Char.ofNat 44)
      (pyLower m.cloud_region).data
    rcases hsp : splitOnCharAux (Char.ofNat 44) (pyLower m.cloud_region).data
      with _ | ⟨hd, tl⟩
    · exact absurd hsp hne
    · simp [pySplit, hsp]
  have h2 : ((m.cloud_type == "aws") || (m.cloud_type == "azure")) = true := by
    rcases hcloud with h | h <;> simp [h]
  have heq : set_subnets_for_cloud_mirror subnets m =
      { m with subnets :=
        (((pySplit (pyLower m.cloud_region) (Char.ofNat 44)).filter
          (fun r => (subnetsGet subnets r).isSome)).flatMap
          (fun r => (subnetsGet subnets r).getD [])) } := by
    simp only [set_subnets_for_cloud_mirror]
    rw [if_neg (by simp [h1, h2])]
  rw [heq]
  refine ⟨?_, rfl, rfl, rfl⟩
  intro s
  constructor
  · intro hs
    have hs2 : s ∈ ((pySplit (pyLower m.cloud_region) (Char.ofNat 44)).filter
        (fun r => (subnetsGet subnets r).isSome)).flatMap
        (fun r => (subnetsGet subnets r).getD []) := by simpa using hs
    obtain ⟨r, hrf, hsr⟩ := List.mem_flatMap.mp hs2
    obtain ⟨hrmem, hrsome⟩ := List.mem_filter.mp hrf
    obtain ⟨l, hl⟩ := Option.isSome_iff_exists.mp hrsome
    rw [hl] at hsr
    exact ⟨r, hrmem, l, hl, by simpa using hsr⟩
  · intro ⟨r, hrmem, l, hl, hs⟩
    have : s ∈ ((pySplit (pyLower m.cloud_region) (Char.ofNat 44)).filter
        (fun r => (subnetsGet subnets r).isSome)).flatMap
        (fun r => (subnetsGet subnets r).getD []) :=
      List.mem_flatMap.mpr ⟨r, List.mem_filter.mpr ⟨hrmem, by simp [hl]⟩,
        by simp [hl, hs]⟩
    simpa using this

/-- Counterexample to C7 as stated: a GCP mirror with a non-empty region
list present in the provider map keeps its old subnets; the step does not
replace them with the provider CIDRs. -/
theorem C7_counterexample :
    set_subnets_for_cloud_mirror [(("us-west1"), [IPNet.mk 4 100 200])]
        exC7gcp = exC7gcp ∧
    exC7gcp.subnets ≠ [IPNet.mk 4 100 200] := by
  constructor
  · rfl
  · decide

/-- Witness for C7: the AWS mirror picks up the provider CIDR of its
lower-cased region. -/
theorem C7_cloud_subnets_replacement_witness :
    ∃ r ∈ pySplit (pyLower exC7aws.cloud_region) (Char.ofNat 44),
      ∃ l, subnetsGet [(("us-east-1"), [IPNet.mk 4 7 7])] r = some l ∧
        IPNet.mk 4 7 7 ∈ l :=
  ((C7_cloud_subnets_replacement [(("us-east-1"), [IPNet.mk 4 7 7])]
    exC7aws (Or.inl rfl)).1 (IPNet.mk 4 7 7)).mp (by decide)

/-! Claim C8. -/

/-- C8 (amended): the commit of update_mirrors.py writes every processed
mirror, its failure reason preserved in the status column, and the
downstream working-mirror filter is what keeps non-ok rows out of
responses; the commit of api/handlers.py instead drops failed mirrors at
commit time: every row it writes comes from a mirror whose status is ok or
expired. -/
theorem C8_commit_failure_semantics :
    (∀ (mirrors : List MirrorData) (m : MirrorData), m ∈ mirrors →
      to_mirror_row m ∈ update_mirrors_commit mirrors ∧
      (to_mirror_row m).status = m.status) ∧
    (∀ (x y z : Bool) (rows : List MirrorRow) (r : MirrorRow),
      r ∈ get_all_mirrors_db_filter true x y z rows → r.status = "ok") ∧
    (∀ (mirrors : List MirrorData) (r : MirrorRow),
      r ∈ handlers_commit mirrors →
      ∃ m ∈ mirrors, to_mirror_row m = r ∧
        (m.status = "ok" ∨ m.status = "expired")) := by
  refine ⟨?_, ?_, ?_⟩
  · intro mirrors m hm
    exact ⟨List.mem_map_of_mem to_mirror_row hm, rfl⟩
  · intro x y z rows r hr
    simp only [get_all_mirrors_db_filter, if_true] at hr
    have hok : (r.status == "ok") = true := by
      cases x
      · simp only [Bool.false_eq_true, if_false] at hr
        exact (List.mem_filter.mp hr).2
      · simp only [if_true] at hr
        exact (List.mem_filter.mp (List.mem_filter.mp hr).1).2
    simpa using hok
  · intro mirrors r hr
    obtain ⟨m, hmf, hrow⟩ := List.mem_map.mp hr
    obtain ⟨hm, hcond⟩ := List.mem_filter.mp hmf
    have hor : (m.status == "ok") = true ∨ (m.status == "expired") = true := by
      have := (Bool.and_eq_true _ _).mp hcond
      exact Bool.or_eq_true_iff.mp this.2
    refine ⟨m, hm, hrow, ?_⟩
    rcases hor with h | h
    · exact Or.inl (by simpa using h)
    · exact Or.inr (by simpa using h)

/-- Counterexample to C8 as stated: a mirror whose probing failed is not
written at all by the commit of api/handlers.py, while the commit of
update_mirrors.py does write it. -/
theorem C8_counterexample :
    handlers_commit [exC8failed] = [] ∧
    (¬ ∃ r ∈ handlers_commit [exC8failed], r.name = exC8failed.name) ∧
    update_mirrors_commit [exC8failed] = [to_mirror_row exC8failed] := by
  refine ⟨rfl, by decide, rfl⟩

/-- Witness for C8: the failed mirror row survives the update_mirrors.py
commit with its failure reason. -/
theorem C8_commit_failure_semantics_witness :
    to_mirror_row exC8failed ∈ update_mirrors_commit [exC8failed] ∧
    (to_mirror_row exC8failed).status = exC8failed.status :=
  C8_commit_failure_semantics.1 [exC8failed] exC8failed (by decide)

end Mirrors
